import Mathlib

/-!
Shallow embedding of the Emotional-AI client pipeline (`src/script.js`) and
proofs about it.

The embedding models the module-level mutable state of `script.js` as two
records: `PipelineState` for the analysis queue machinery
(`analysisQueue`, `isAnalyzing`, `emotionHistory`, the status line and the
emotion display), and `RecorderState` for the recording session machinery
(`mediaRecorder`, `audioContext`, `animationId`, `isRecording`, `sessionId`,
button state).

Asynchrony is made explicit: a `processQueue` invocation runs synchronously up
to its first suspension point, and every pending continuation — a
`setTimeout(processQueue, d)` timer or an in-flight classifier request — is an
element of `PipelineState.activities`.  The environment drives the system
through `Event`s (a chunk arriving, a timer firing, a classifier response
settling); `step` is the resulting transition function.  Three ghost trace
fields (`enqueued`, `dispatched`, `inserted`) record, in order, every segment
pushed onto the queue, every segment handed to the classifier call, and every
timeline insertion (most recent first); they are write-only instrumentation
and never influence control flow.
-/

namespace EmotionalAI

/-- `CHUNK_DURATION` from script.js (ms between producer chunks). -/
def CHUNK_DURATION : Nat := 3000

/-- `MIN_CHUNK_SIZE` from script.js (bytes). -/
def MIN_CHUNK_SIZE : Nat := 5000

/-- `MAX_CONCURRENT_ANALYSIS` from script.js. -/
def MAX_CONCURRENT_ANALYSIS : Nat := 1

/-- An audio chunk (a `Blob`) as the pipeline sees it: its byte size, plus an
identity tag so that individual segments can be tracked through the queue. -/
structure Segment where
  size : Nat
  tag : Nat
deriving DecidableEq, Repr

/-- The `voice_features` object of a successful classifier response. -/
structure VoiceFeatures where
  pitch : String
  pace : String
  energy : String
  clarity : String
deriving DecidableEq, Repr

/-- The JSON body of a successful (`response.ok`) classifier response. -/
structure AnalysisResult where
  skipped : Bool
  emotion : String
  confidence : Rat
  voice_features : VoiceFeatures
  analysis : String
deriving DecidableEq, Repr

/-- How one classifier call settles, as distinguished by script.js:
`ok` (HTTP success, body parsed), `httpError` (`response.ok` false — handled
in the `else` branch), or `thrown` (an exception reaching the `catch`). -/
inductive ClassifierOutcome
  | ok (result : AnalysisResult)
  | httpError
  | thrown
deriving DecidableEq, Repr

/-- One entry of `emotionHistory` (`{ timestamp, emotion, confidence }`).
The timestamp is the wall-clock instant the response was handled. -/
structure TimelineEntry where
  timestamp : Nat
  emotion : String
  confidence : Rat
deriving DecidableEq, Repr

/-- The DOM fields written by `updateUI` (emotion indicator, confidence,
analysis text and the four voice-feature values). -/
structure EmotionDisplay where
  emotion : String
  confidence : Rat
  analysisText : String
  pitch : String
  pace : String
  energy : String
  clarity : String
deriving DecidableEq, Repr

/-- A pending asynchronous continuation of the queue worker: a
`setTimeout(() => processQueue(), delayMs)` timer, or an in-flight classifier
request for the dequeued segment `seg`. -/
inductive Activity
  | scheduled (delayMs : Nat)
  | inflight (seg : Segment)
deriving DecidableEq, Repr

/-- The queue-related module state of script.js, plus ghost traces. -/
structure PipelineState where
  analysisQueue : List Segment
  isAnalyzing : Bool
  activities : List Activity
  emotionHistory : List TimelineEntry
  statusText : String
  display : Option EmotionDisplay
  /-- Ghost: every segment ever pushed by `processAudioChunk`, in order. -/
  enqueued : List Segment
  /-- Ghost: every segment ever handed to the classifier call, in order. -/
  dispatched : List Segment
  /-- Ghost: every timeline insertion, most recent first. -/
  inserted : List TimelineEntry
deriving DecidableEq, Repr

/-- The initial module state of script.js. -/
def initState : PipelineState :=
  { analysisQueue := [], isAnalyzing := false, activities := [],
    emotionHistory := [], statusText := "", display := none,
    enqueued := [], dispatched := [], inserted := [] }

/-- The synchronous body of `processQueue` (script.js lines 112–184), up to
its first suspension point: on an empty queue it parks the worker
(`isAnalyzing = false`); otherwise it shifts the head; an undersized head is
discarded and a 100 ms timer is scheduled; otherwise the status becomes
"Analyzing..." and the segment goes in flight to the classifier. -/
def runProcessQueue (s : PipelineState) : PipelineState :=
  match s.analysisQueue with
  | [] => { s with isAnalyzing := false }
  | seg :: rest =>
    if seg.size < MIN_CHUNK_SIZE then
      { s with isAnalyzing := true, analysisQueue := rest,
               activities := s.activities ++ [Activity.scheduled 100] }
    else
      { s with isAnalyzing := true, analysisQueue := rest,
               activities := s.activities ++ [Activity.inflight seg],
               statusText := "Analyzing...",
               dispatched := s.dispatched ++ [seg] }

/-- `emotionHistory.unshift(entry)` followed by the capacity check
(`if (emotionHistory.length > 10) emotionHistory.pop()`). -/
def pushHistory (e : TimelineEntry) (h : List TimelineEntry) :
    List TimelineEntry :=
  let h2 := e :: h
  if h2.length > 10 then h2.dropLast else h2

/-- `updateUI(result)` (script.js lines 308–353): write the emotion display
fields and insert a timeline entry timestamped `now` at the head of the
history. -/
def updateUI (now : Nat) (r : AnalysisResult) (s : PipelineState) :
    PipelineState :=
  { s with
    display := some
      { emotion := r.emotion, confidence := r.confidence,
        analysisText := r.analysis,
        pitch := r.voice_features.pitch, pace := r.voice_features.pace,
        energy := r.voice_features.energy,
        clarity := r.voice_features.clarity },
    emotionHistory := pushHistory
      { timestamp := now, emotion := r.emotion, confidence := r.confidence }
      s.emotionHistory,
    inserted :=
      { timestamp := now, emotion := r.emotion, confidence := r.confidence }
        :: s.inserted }

/-- The continuation of `processQueue` that runs when the classifier call
settles at time `now` (script.js lines 150–176): handle the outcome, then —
in the `finally` block — schedule the next `processQueue` after 500 ms.
On `httpError` the queue is cleared when more than 3 items are pending;
a `thrown` error only changes the status text. -/
def handleResponse (now : Nat) (o : ClassifierOutcome) (s : PipelineState) :
    PipelineState :=
  let s2 :=
    match o with
    | ClassifierOutcome.ok r =>
      if r.skipped then { s with statusText := "Recording..." }
      else
        let s3 := updateUI now r s
        { s3 with statusText := "Recording... (" ++ r.emotion ++ " detected)" }
    | ClassifierOutcome.httpError =>
      let s3 := { s with statusText := "Recording... (analysis error)" }
      if s3.analysisQueue.length > 3 then { s3 with analysisQueue := [] }
      else s3
    | ClassifierOutcome.thrown =>
      { s with statusText := "Recording... (error)" }
  { s2 with activities := s2.activities ++ [Activity.scheduled 500] }

/-- Remove the first `scheduled` activity, returning its delay and the rest. -/
def takeScheduled : List Activity → Option (Nat × List Activity)
  | [] => none
  | Activity.scheduled d :: rest => some (d, rest)
  | a :: rest =>
    match takeScheduled rest with
    | some (d, rest2) => some (d, a :: rest2)
    | none => none

/-- Remove the first `inflight` activity, returning its segment and the rest. -/
def takeInflight : List Activity → Option (Segment × List Activity)
  | [] => none
  | Activity.inflight seg :: rest => some (seg, rest)
  | a :: rest =>
    match takeInflight rest with
    | some (seg, rest2) => some (seg, a :: rest2)
    | none => none

/-- An environment event driving the pipeline: `enqueue` is a call to
`processAudioChunk`, `fire` is a pending `setTimeout` timer firing, and
`respond now o` is the in-flight classifier call settling with outcome `o`
at wall-clock time `now`. -/
inductive Event
  | enqueue (seg : Segment)
  | fire
  | respond (now : Nat) (o : ClassifierOutcome)
deriving DecidableEq, Repr

/-- One transition of the pipeline.  `processAudioChunk` pushes the chunk and
starts the worker only when `isAnalyzing` is false; a timer firing runs
`processQueue`; a response settling runs the response continuation.  A `fire`
with no pending timer, or a `respond` with nothing in flight, does nothing. -/
def step (s : PipelineState) : Event → PipelineState
  | Event.enqueue seg =>
    let s2 := { s with analysisQueue := s.analysisQueue ++ [seg],
                       enqueued := s.enqueued ++ [seg] }
    if s2.isAnalyzing then s2 else runProcessQueue s2
  | Event.fire =>
    match takeScheduled s.activities with
    | some (_, rest) => runProcessQueue { s with activities := rest }
    | none => s
  | Event.respond now o =>
    match takeInflight s.activities with
    | some (_, rest) => handleResponse now o { s with activities := rest }
    | none => s

/-- Run the pipeline from the initial state through a list of events. -/
def run (evs : List Event) : PipelineState :=
  evs.foldl step initState

/-- The `mediaRecorder.ondataavailable` handler installed by `startRecording`
(script.js lines 229–234): hand the chunk to `processAudioChunk` only when
its size strictly exceeds `MIN_CHUNK_SIZE`. -/
def ondataavailable (seg : Segment) (s : PipelineState) : PipelineState :=
  if seg.size > MIN_CHUNK_SIZE then step s (Event.enqueue seg) else s

/-! ### Reachability invariant -/

/-- The inductive invariant of the pipeline: an idle worker has no pending
continuation; a busy worker has exactly one; the dispatch trace followed by
the current queue is a subsequence of the enqueue trace (FIFO order, with
drops); every dispatched segment met the size filter; and the history is the
10 most recent insertions. -/
structure Inv (s : PipelineState) : Prop where
  idle_none : s.isAnalyzing = false → s.activities = []
  busy_one : s.isAnalyzing = true → s.activities.length = 1
  fifo : List.Sublist (s.dispatched ++ s.analysisQueue) s.enqueued
  disp_size : ∀ sg ∈ s.dispatched, MIN_CHUNK_SIZE ≤ sg.size
  hist : s.emotionHistory = s.inserted.take 10

theorem inv_init : Inv initState := by
  constructor <;> simp [initState]

theorem pushHistory_take (e : TimelineEntry) (l : List TimelineEntry) :
    pushHistory e (l.take 10) = (e :: l).take 10 := by
  unfold pushHistory
  by_cases h : 10 ≤ l.length
  · have hlen : (l.take 10).length = 10 := by simp [h]
    have hne : l.take 10 ≠ [] := by
      intro hcon
      rw [hcon] at hlen
      simp at hlen
    simp only [List.length_cons, hlen]
    rw [if_pos (by omega)]
    rw [List.dropLast_cons_of_ne_nil hne]
    rw [List.dropLast_eq_take, hlen]
    rw [List.take_take]
    simp
  · have hlt : l.length < 10 := by omega
    have htake : l.take 10 = l := List.take_of_length_le (by omega)
    rw [htake]
    rw [if_neg (by simp; omega)]
    have : (e :: l).take 10 = e :: l := List.take_of_length_le (by simp; omega)
    rw [this]

theorem inv_runProcessQueue (s : PipelineState)
    (hact : s.activities = [])
    (hfifo : List.Sublist (s.dispatched ++ s.analysisQueue) s.enqueued)
    (hdisp : ∀ sg ∈ s.dispatched, MIN_CHUNK_SIZE ≤ sg.size)
    (hhist : s.emotionHistory = s.inserted.take 10) :
    Inv (runProcessQueue s) := by
  rcases hq : s.analysisQueue with _ | ⟨seg, rest⟩
  · rw [hq] at hfifo
    simp only [runProcessQueue, hq]
    exact ⟨fun _ => hact, by simp, hfifo, hdisp, hhist⟩
  · rw [hq] at hfifo
    simp only [runProcessQueue, hq]
    by_cases hsz : seg.size < MIN_CHUNK_SIZE
    · rw [if_pos hsz]
      refine ⟨by simp, by simp [hact], ?_, hdisp, hhist⟩
      exact List.Sublist.trans
        (List.Sublist.append_left (List.sublist_cons_self seg rest) _) hfifo
    · rw [if_neg hsz]
      refine ⟨by simp, by simp [hact], ?_, ?_, hhist⟩
      · simpa using hfifo
      · intro sg hsg
        simp at hsg
        rcases hsg with hsg | hsg
        · exact hdisp sg hsg
        · subst hsg; omega

theorem inv_enqueued (s : PipelineState) (h : Inv s) (seg : Segment) :
    Inv { s with analysisQueue := s.analysisQueue ++ [seg],
                 enqueued := s.enqueued ++ [seg] } := by
  refine ⟨fun hf => by simpa using h.idle_none hf,
    fun hb => by simpa using h.busy_one hb, ?_, h.disp_size, h.hist⟩
  have hstep : List.Sublist ((s.dispatched ++ s.analysisQueue) ++ [seg])
      (s.enqueued ++ [seg]) :=
    List.Sublist.append h.fifo (List.Sublist.refl [seg])
  simpa [List.append_assoc] using hstep

theorem inv_step (s : PipelineState) (h : Inv s) (e : Event) :
    Inv (step s e) := by
  match e with
  | Event.enqueue seg =>
    have hq := inv_enqueued s h seg
    by_cases hb : s.isAnalyzing = true
    · have hcond : ({ s with analysisQueue := s.analysisQueue ++ [seg],
                             enqueued := s.enqueued ++ [seg] }
          : PipelineState).isAnalyzing = true := hb
      simp only [step]
      rw [if_pos hcond]
      exact hq
    · have hb' : s.isAnalyzing = false := by simpa using hb
      have hcond : ¬ ({ s with analysisQueue := s.analysisQueue ++ [seg],
                               enqueued := s.enqueued ++ [seg] }
          : PipelineState).isAnalyzing = true := by
        simp [hb']
      simp only [step]
      rw [if_neg hcond]
      exact inv_runProcessQueue _ (by simpa using h.idle_none hb')
        hq.fifo hq.disp_size hq.hist
  | Event.fire =>
    by_cases hb : s.isAnalyzing = true
    · have hlen := h.busy_one hb
      obtain ⟨a, ha⟩ := List.length_eq_one.mp hlen
      match a, ha with
      | Activity.scheduled d, ha =>
        simp only [step, ha, takeScheduled]
        exact inv_runProcessQueue _ rfl h.fifo h.disp_size h.hist
      | Activity.inflight sg, ha =>
        simp only [step, ha, takeScheduled]
        exact h
    · have hb' : s.isAnalyzing = false := by simpa using hb
      simp only [step, h.idle_none hb', takeScheduled]
      exact h
  | Event.respond now o =>
    by_cases hb : s.isAnalyzing = true
    · have hlen := h.busy_one hb
      obtain ⟨a, ha⟩ := List.length_eq_one.mp hlen
      match a, ha with
      | Activity.scheduled d, ha =>
        simp only [step, ha, takeInflight]
        exact h
      | Activity.inflight sg, ha =>
        simp only [step, ha, takeInflight]
        match o with
        | ClassifierOutcome.ok r =>
          by_cases hsk : r.skipped = true
          · simp only [handleResponse, hsk, if_pos]
            exact ⟨by simp [hb], by simp, h.fifo, h.disp_size, h.hist⟩
          · have hsk' : r.skipped = false := by simpa using hsk
            simp only [handleResponse, hsk', Bool.false_eq_true, if_neg,
              not_false_iff, updateUI]
            refine ⟨by simp [hb], by simp, h.fifo, h.disp_size, ?_⟩
            simp only
            rw [h.hist, pushHistory_take]
        | ClassifierOutcome.httpError =>
          by_cases hq : s.analysisQueue.length > 3
          · simp only [handleResponse]
            rw [if_pos (by simpa using hq)]
            refine ⟨by simp [hb], by simp, ?_, h.disp_size, h.hist⟩
            exact List.Sublist.trans
              (List.Sublist.append_left (List.nil_sublist _) _) h.fifo
          · simp only [handleResponse]
            rw [if_neg (by simpa using hq)]
            exact ⟨by simp [hb], by simp, h.fifo, h.disp_size, h.hist⟩
        | ClassifierOutcome.thrown =>
          simp only [handleResponse]
          exact ⟨by simp [hb], by simp, h.fifo, h.disp_size, h.hist⟩
    · have hb' : s.isAnalyzing = false := by simpa using hb
      simp only [step, h.idle_none hb', takeInflight]
      exact h

theorem inv_foldl (evs : List Event) :
    ∀ s : PipelineState, Inv s → Inv (evs.foldl step s) := by
  induction evs with
  | nil => intro s h; simpa using h
  | cons e rest ih =>
    intro s h
    simp only [List.foldl_cons]
    exact ih (step s e) (inv_step s h e)

theorem inv_run (evs : List Event) : Inv (run evs) :=
  inv_foldl evs initState inv_init

/-! ### Claims about the dispatch queue -/

/-- C1: in every reachable state the sequence of segments handed to the
classifier is a subsequence of the sequence of enqueued segments (FIFO order,
with drops only), the worker has at most one pending continuation — so at
most one segment is ever in flight and two worker invocations never overlap —
and `processAudioChunk` on a busy worker only appends to the queue: it starts
no new worker invocation and dispatches nothing. -/
theorem c1_fifo_single_flight (evs : List Event) (seg : Segment) :
    List.Sublist (run evs).dispatched (run evs).enqueued ∧
    (run evs).activities.length ≤ 1 ∧
    ((run evs).isAnalyzing = true →
      (step (run evs) (Event.enqueue seg)).activities = (run evs).activities ∧
      (step (run evs) (Event.enqueue seg)).dispatched
        = (run evs).dispatched) := by
  have h := inv_run evs
  refine ⟨?_, ?_, ?_⟩
  · exact List.Sublist.trans (List.sublist_append_left _ _) h.fifo
  · by_cases hb : (run evs).isAnalyzing = true
    · rw [h.busy_one hb]
    · rw [h.idle_none (by simpa using hb)]
      simp
  · intro hb
    have hcond : ({ run evs with
        analysisQueue := (run evs).analysisQueue ++ [seg],
        enqueued := (run evs).enqueued ++ [seg] }
          : PipelineState).isAnalyzing = true := hb
    simp only [step]
    rw [if_pos hcond]
    exact ⟨rfl, rfl⟩

theorem c1_fifo_single_flight_witness :
    (run [Event.enqueue ⟨6000, 0⟩]).isAnalyzing = true ∧
    (step (run [Event.enqueue ⟨6000, 0⟩]) (Event.enqueue ⟨5500, 1⟩)).activities
      = (run [Event.enqueue ⟨6000, 0⟩]).activities :=
  ⟨by decide,
    ((c1_fifo_single_flight [Event.enqueue ⟨6000, 0⟩] ⟨5500, 1⟩).2.2
      (by decide)).1⟩

/-- C2 counterexample: the spec scenario — four valid-size segments enqueued,
the first three classifier calls failing — does not clear the queue and does
dispatch the fourth segment.  After the third failure is handled and the
worker continues, the fourth segment is in flight and the dispatch trace
contains all four segments. -/
theorem c2_scenario_counterexample :
    (run [Event.enqueue ⟨6000, 1⟩, Event.enqueue ⟨6000, 2⟩,
          Event.enqueue ⟨6000, 3⟩, Event.enqueue ⟨6000, 4⟩,
          Event.respond 1 ClassifierOutcome.httpError, Event.fire,
          Event.respond 2 ClassifierOutcome.httpError, Event.fire,
          Event.respond 3 ClassifierOutcome.httpError, Event.fire]).dispatched
      = [⟨6000, 1⟩, ⟨6000, 2⟩, ⟨6000, 3⟩, ⟨6000, 4⟩] ∧
    (run [Event.enqueue ⟨6000, 1⟩, Event.enqueue ⟨6000, 2⟩,
          Event.enqueue ⟨6000, 3⟩, Event.enqueue ⟨6000, 4⟩,
          Event.respond 1 ClassifierOutcome.httpError, Event.fire,
          Event.respond 2 ClassifierOutcome.httpError, Event.fire,
          Event.respond 3 ClassifierOutcome.httpError, Event.fire]).activities
      = [Activity.inflight ⟨6000, 4⟩] := by
  decide

/-- C2 (amended): shedding is tied to the error-response branch only.  When a
classifier call settles with an error response (`response.ok` false), the
queue is cleared exactly when more than 3 items are pending; clearing an
already-empty queue is a no-op; and a thrown (transmission) error never sheds
the queue.  In the spec's 4-segment scenario the pending length never exceeds
3, so nothing is shed and the 4th segment is dispatched. -/
theorem c2_shedding_amended (s : PipelineState) (now : Nat) (seg : Segment)
    (rest : List Activity)
    (hin : takeInflight s.activities = some (seg, rest)) :
    (3 < s.analysisQueue.length →
      (step s (Event.respond now ClassifierOutcome.httpError)).analysisQueue
        = []) ∧
    (s.analysisQueue = [] →
      (step s (Event.respond now ClassifierOutcome.httpError)).analysisQueue
        = []) ∧
    (step s (Event.respond now ClassifierOutcome.thrown)).analysisQueue
      = s.analysisQueue := by
  refine ⟨?_, ?_, ?_⟩
  · intro hlen
    simp only [step, hin, handleResponse]
    rw [if_pos (by simpa using hlen)]
  · intro hq
    simp only [step, hin, handleResponse]
    by_cases hlen : 3 < s.analysisQueue.length
    · rw [if_pos (by simpa using hlen)]
    · rw [if_neg (by simpa using hlen)]
      simpa using hq
  · simp only [step, hin, handleResponse]

theorem c2_shedding_amended_witness :
    takeInflight [Activity.inflight ⟨6000, 0⟩]
        = some (⟨6000, 0⟩, []) ∧
    3 < ([⟨5100, 1⟩, ⟨5200, 2⟩, ⟨5300, 3⟩, ⟨5400, 4⟩] : List Segment).length ∧
    (step { initState with
              analysisQueue := [⟨5100, 1⟩, ⟨5200, 2⟩, ⟨5300, 3⟩, ⟨5400, 4⟩],
              isAnalyzing := true,
              activities := [Activity.inflight ⟨6000, 0⟩] }
        (Event.respond 7 ClassifierOutcome.httpError)).analysisQueue = [] :=
  ⟨by decide, by decide,
    (c2_shedding_amended
      { initState with
          analysisQueue := [⟨5100, 1⟩, ⟨5200, 2⟩, ⟨5300, 3⟩, ⟨5400, 4⟩],
          isAnalyzing := true,
          activities := [Activity.inflight ⟨6000, 0⟩] }
      7 ⟨6000, 0⟩ [] (by decide)).1 (by decide)⟩

/-- C3: a segment smaller than `MIN_CHUNK_SIZE` is never sent to the
classifier under either entry path — the `ondataavailable` ingestion check
drops it before it is enqueued; every segment in the dispatch trace of any
reachable state meets the threshold; and even if an undersized segment sits
at the head of the queue (enqueued by some other call site), the worker's
defensive check discards it without dispatching. -/
theorem c3_undersized_never_sent (evs : List Event) (s : PipelineState)
    (seg : Segment) (hsz : seg.size < MIN_CHUNK_SIZE) :
    ondataavailable seg s = s ∧
    (∀ sg ∈ (run evs).dispatched, MIN_CHUNK_SIZE ≤ sg.size) ∧
    (∀ q, s.analysisQueue = seg :: q →
      (step s Event.fire).dispatched = s.dispatched) := by
  refine ⟨?_, (inv_run evs).disp_size, ?_⟩
  · unfold ondataavailable
    rw [if_neg (by omega)]
  · intro q hq
    rcases htk : takeScheduled s.activities with _ | ⟨d, rest⟩
    · simp [step, htk]
    · simp only [step, htk]
      simp only [runProcessQueue, hq]
      rw [if_pos hsz]

theorem c3_undersized_never_sent_witness :
    (⟨100, 0⟩ : Segment).size < MIN_CHUNK_SIZE ∧
    ondataavailable ⟨100, 0⟩ initState = initState ∧
    (step { initState with
              analysisQueue := [⟨100, 0⟩],
              isAnalyzing := true,
              activities := [Activity.scheduled 100] }
        Event.fire).dispatched = [] :=
  ⟨by decide,
    (c3_undersized_never_sent [] initState ⟨100, 0⟩ (by decide)).1,
    (c3_undersized_never_sent []
      { initState with
          analysisQueue := [⟨100, 0⟩],
          isAnalyzing := true,
          activities := [Activity.scheduled 100] }
      ⟨100, 0⟩ (by decide)).2.2 [] rfl⟩

/-- C7: whenever an in-flight classifier call settles — success, skip, error
response or thrown error alike — the worker schedules its continuation after
the fixed 500 ms inter-dispatch delay (so no per-segment error ever leaves
the worker without a pending continuation), while the undersized-segment fast
path inside the worker schedules the continuation after 100 ms instead. -/
theorem c7_pacing_delays (s : PipelineState) (now : Nat)
    (o : ClassifierOutcome) (seg sg : Segment) (d : Nat)
    (restI restS : List Activity) (q : List Segment) :
    (takeInflight s.activities = some (seg, restI) →
      (step s (Event.respond now o)).activities
          = restI ++ [Activity.scheduled 500] ∧
      (step s (Event.respond now o)).activities ≠ []) ∧
    (takeScheduled s.activities = some (d, restS) →
      s.analysisQueue = sg :: q → sg.size < MIN_CHUNK_SIZE →
      (step s Event.fire).activities = restS ++ [Activity.scheduled 100]) := by
  constructor
  · intro hin
    have hact : (step s (Event.respond now o)).activities
        = restI ++ [Activity.scheduled 500] := by
      simp only [step, hin]
      match o with
      | ClassifierOutcome.ok r =>
        by_cases hsk : r.skipped = true
        · simp [handleResponse, hsk]
        · have hsk' : r.skipped = false := by simpa using hsk
          simp [handleResponse, hsk', updateUI]
      | ClassifierOutcome.httpError =>
        by_cases hlen : 3 < s.analysisQueue.length
        · simp only [handleResponse]
          rw [if_pos (by simpa using hlen)]
        · simp only [handleResponse]
          rw [if_neg (by simpa using hlen)]
      | ClassifierOutcome.thrown => simp [handleResponse]
    exact ⟨hact, by simp [hact]⟩
  · intro htk hq hsz
    simp only [step, htk]
    simp only [runProcessQueue, hq]
    rw [if_pos hsz]

theorem c7_pacing_delays_witness :
    takeInflight [Activity.inflight ⟨6000, 0⟩] = some (⟨6000, 0⟩, []) ∧
    (step { initState with
              isAnalyzing := true,
              activities := [Activity.inflight ⟨6000, 0⟩] }
        (Event.respond 5 ClassifierOutcome.thrown)).activities
      = [Activity.scheduled 500] :=
  ⟨by decide,
    ((c7_pacing_delays
        { initState with
            isAnalyzing := true,
            activities := [Activity.inflight ⟨6000, 0⟩] }
        5 ClassifierOutcome.thrown ⟨6000, 0⟩ ⟨0, 0⟩ 0 [] [] []).1
      (by decide)).1⟩

/-- C9: when the classifier responds successfully with `skipped: true`, the
worker adds no timeline entry, leaves the emotion display and the insertion
trace untouched, and sets the status text back to plain "Recording...". -/
theorem c9_skipped_response (s : PipelineState) (now : Nat)
    (r : AnalysisResult) (seg : Segment) (rest : List Activity)
    (hin : takeInflight s.activities = some (seg, rest))
    (hsk : r.skipped = true) :
    (step s (Event.respond now (ClassifierOutcome.ok r))).emotionHistory
        = s.emotionHistory ∧
    (step s (Event.respond now (ClassifierOutcome.ok r))).display
        = s.display ∧
    (step s (Event.respond now (ClassifierOutcome.ok r))).inserted
        = s.inserted ∧
    (step s (Event.respond now (ClassifierOutcome.ok r))).statusText
        = "Recording..." := by
  simp [step, hin, handleResponse, hsk]

theorem c9_skipped_response_witness :
    takeInflight [Activity.inflight ⟨6000, 0⟩] = some (⟨6000, 0⟩, []) ∧
    (step { initState with
              isAnalyzing := true,
              activities := [Activity.inflight ⟨6000, 0⟩] }
        (Event.respond 5 (ClassifierOutcome.ok
          { skipped := true, emotion := "", confidence := 0,
            voice_features := { pitch := "", pace := "", energy := "",
                                clarity := "" },
            analysis := "" }))).statusText = "Recording..." :=
  ⟨by decide,
    (c9_skipped_response
      { initState with
          isAnalyzing := true,
          activities := [Activity.inflight ⟨6000, 0⟩] }
      5
      { skipped := true, emotion := "", confidence := 0,
        voice_features := { pitch := "", pace := "", energy := "",
                            clarity := "" },
        analysis := "" }
      ⟨6000, 0⟩ [] (by decide) rfl).2.2.2⟩

/-- C10: the two filter stages disagree exactly at the threshold.  A segment
whose size equals `MIN_CHUNK_SIZE` is dropped by the ingestion check (which
requires size strictly greater than the threshold, so it is never enqueued
from `ondataavailable`), yet the worker's defensive check (which skips only
sizes strictly below the threshold) dispatches that segment to the classifier
if it reaches the head of the queue. -/
theorem c10_threshold_disagreement (s : PipelineState) (seg : Segment)
    (d : Nat) (rest : List Activity) (q : List Segment)
    (hsz : seg.size = MIN_CHUNK_SIZE) :
    ondataavailable seg s = s ∧
    (takeScheduled s.activities = some (d, rest) →
      s.analysisQueue = seg :: q →
      (step s Event.fire).dispatched = s.dispatched ++ [seg] ∧
      (step s Event.fire).activities = rest ++ [Activity.inflight seg]) := by
  constructor
  · unfold ondataavailable
    rw [if_neg (by omega)]
  · intro htk hq
    simp only [step, htk]
    simp only [runProcessQueue, hq]
    rw [if_neg (by omega)]
    exact ⟨rfl, rfl⟩

theorem c10_threshold_disagreement_witness :
    (⟨5000, 0⟩ : Segment).size = MIN_CHUNK_SIZE ∧
    ondataavailable ⟨5000, 0⟩ initState = initState ∧
    (step { initState with
              analysisQueue := [⟨5000, 0⟩],
              isAnalyzing := true,
              activities := [Activity.scheduled 500] }
        Event.fire).dispatched = [⟨5000, 0⟩] :=
  ⟨by decide,
    (c10_threshold_disagreement initState ⟨5000, 0⟩ 0 [] [] (by decide)).1,
    by
      have h := ((c10_threshold_disagreement
        { initState with
            analysisQueue := [⟨5000, 0⟩],
            isAnalyzing := true,
            activities := [Activity.scheduled 500] }
        ⟨5000, 0⟩ 500 [] [] (by decide)).2 (by decide) rfl).1
      simpa using h⟩

/-- C8: in every reachable state the timeline history has at most 10 entries
and equals the 10 most recent insertions in most-recent-first order; a
non-skipped successful classifier response inserts the new
`{timestamp, emotion, confidence}` entry at the head, keeping only the 9 most
recent previous entries (the oldest is evicted once capacity is exceeded). -/
theorem c8_timeline_bounded (evs : List Event) (now : Nat)
    (r : AnalysisResult) (seg : Segment) (rest : List Activity) :
    (run evs).emotionHistory.length ≤ 10 ∧
    (run evs).emotionHistory = (run evs).inserted.take 10 ∧
    (takeInflight (run evs).activities = some (seg, rest) →
      r.skipped = false →
      (step (run evs)
          (Event.respond now (ClassifierOutcome.ok r))).emotionHistory
        = { timestamp := now, emotion := r.emotion,
            confidence := r.confidence }
            :: (run evs).emotionHistory.take 9) := by
  have h := inv_run evs
  refine ⟨?_, h.hist, ?_⟩
  · rw [h.hist]
    exact List.length_take_le 10 _
  · intro hin hsk
    simp only [step, hin, handleResponse, hsk, Bool.false_eq_true, if_neg,
      not_false_iff, updateUI]
    rw [h.hist, pushHistory_take]
    simp [List.take_take]

theorem c8_timeline_bounded_witness :
    takeInflight (run [Event.enqueue ⟨6000, 0⟩]).activities
        = some (⟨6000, 0⟩, []) ∧
    (step (run [Event.enqueue ⟨6000, 0⟩])
        (Event.respond 42 (ClassifierOutcome.ok
          { skipped := false, emotion := "happy", confidence := mkRat 92 100,
            voice_features := { pitch := "High", pace := "Fast",
                                energy := "High", clarity := "Good" },
            analysis := "joyful" }))).emotionHistory
      = [{ timestamp := 42, emotion := "happy",
           confidence := mkRat 92 100 }] :=
  ⟨by decide,
    by
      have h := (c8_timeline_bounded [Event.enqueue ⟨6000, 0⟩] 42
        { skipped := false, emotion := "happy", confidence := mkRat 92 100,
          voice_features := { pitch := "High", pace := "Fast",
                              energy := "High", clarity := "Good" },
          analysis := "joyful" }
        ⟨6000, 0⟩ []).2.2 (by decide) rfl
      rw [h]
      decide⟩

/-! ### The recording session machinery -/

/-- Session id generation from `startRecording`
(`` sessionId = `session_${Date.now()}` ``): the prefix `session_` followed by
the decimal rendering of the current time in milliseconds.  No other source
of entropy enters the identifier. -/
def genSessionId (now : Nat) : String := "session_" ++ Nat.repr now

/-- The recorder-side module state of script.js: which platform objects
exist (`mediaRecorder`, its stream, `audioContext`, a pending
`requestAnimationFrame` id), the `isRecording` flag, the current session id
and the two button states. -/
structure RecorderState where
  mediaRecorder : Bool
  recorderStream : Bool
  audioContext : Bool
  animationId : Bool
  isRecording : Bool
  sessionId : Option String
  startBtnDisabled : Bool
  stopBtnDisabled : Bool
  statusText : String
deriving DecidableEq, Repr

/-- The recorder state at page load. -/
def initRecorder : RecorderState :=
  { mediaRecorder := false, recorderStream := false, audioContext := false,
    animationId := false, isRecording := false, sessionId := none,
    startBtnDisabled := false, stopBtnDisabled := true, statusText := "" }

/-- Externally visible side effects of start/stop, in program order. -/
inductive Effect
  | getUserMedia
  | recorderStart
  | recorderStop
  | tracksStopped
  | contextClosed
  | animationCanceled
  | endSessionNotice (sid : Option String)
deriving DecidableEq, Repr

/-- How a `startRecording` call concludes: `started` on success, or
`captureFailed` when `getUserMedia` rejects (the catch block shows an alert
and no recording starts).  Note: script.js has no check for an already
active session, so there is no `SessionAlreadyActive` outcome. -/
inductive StartOutcome
  | started
  | captureFailed
deriving DecidableEq, Repr

/-- `startRecording` (script.js lines 202–257).  `now` is `Date.now()` when
the session id is generated; `captureOk` is whether `getUserMedia` resolves.
On success it creates the audio context and recorder, generates a fresh
session id (overwriting any previous one, with no active-session check),
starts slicing, flips `isRecording`, swaps the button states and starts the
waveform animation. On failure nothing has been mutated yet. -/
def startRecording (now : Nat) (captureOk : Bool) (s : RecorderState) :
    RecorderState × List Effect × StartOutcome :=
  if captureOk then
    ({ s with mediaRecorder := true, recorderStream := true,
              audioContext := true,
              sessionId := some (genSessionId now),
              isRecording := true,
              startBtnDisabled := true, stopBtnDisabled := false,
              statusText := "Recording... initializing",
              animationId := true },
     [Effect.getUserMedia, Effect.recorderStart], StartOutcome.started)
  else (s, [Effect.getUserMedia], StartOutcome.captureFailed)

/-- A user click on the Start button: the browser delivers the click to the
`startRecording` handler only when the button is not disabled. -/
def clickStart (now : Nat) (captureOk : Bool) (s : RecorderState) :
    RecorderState × List Effect :=
  if s.startBtnDisabled then (s, [])
  else ((startRecording now captureOk s).1, (startRecording now captureOk s).2.1)

/-- `stopRecording` (script.js lines 260–305).  `noticeOk` is whether the
end-session request succeeds; its failure is caught and only logged, so the
local state transition does not depend on it.  Inside the
`mediaRecorder && isRecording` guard the teardown order is: stop the
recorder, stop the capture tracks, close the audio context, cancel the
pending animation frame, then attempt the end-session notice once. -/
def stopRecording (noticeOk : Bool) (s : RecorderState) :
    RecorderState × List Effect :=
  if s.mediaRecorder && s.isRecording then
    ({ s with isRecording := false,
              startBtnDisabled := false, stopBtnDisabled := true,
              statusText := "Recording stopped" },
     [Effect.recorderStop]
       ++ (if s.recorderStream then [Effect.tracksStopped] else [])
       ++ (if s.audioContext then [Effect.contextClosed] else [])
       ++ (if s.animationId then [Effect.animationCanceled] else [])
       ++ [Effect.endSessionNotice s.sessionId])
  else (s, [])

/-- Whether an effect is the end-session notice. -/
def Effect.isEndNotice : Effect → Bool
  | Effect.endSessionNotice _ => true
  | _ => false

/-! ### Decimal rendering of Nat (needed for session-id uniqueness) -/

/-- Numeric value of a decimal digit character. -/
def digitVal (c : Char) : Nat := c.toNat - 48

/-- Value of an MSB-first decimal digit string. -/
def evalDigits (l : List Char) : Nat :=
  l.foldl (fun a c => a * 10 + digitVal c) 0

/-- MSB-first decimal digit characters of `n`: the rendering `Nat.repr`
produces. -/
def repDigits (n : Nat) : List Char :=
  if h : n < 10 then [Nat.digitChar n]
  else repDigits (n / 10) ++ [Nat.digitChar (n % 10)]
termination_by n
decreasing_by exact Nat.div_lt_self (by omega) (by omega)

theorem digitVal_digitChar : ∀ d, d < 10 → digitVal (Nat.digitChar d) = d := by
  decide

theorem toDigitsCore_eq_repDigits :
    ∀ fuel n ds, n < fuel →
      Nat.toDigitsCore 10 fuel n ds = repDigits n ++ ds := by
  intro fuel
  induction fuel with
  | zero => intro n ds h; omega
  | succ f ih =>
    intro n ds h
    by_cases h10 : n < 10
    · have hdiv : n / 10 = 0 := Nat.div_eq_of_lt h10
      have hmod : n % 10 = n := Nat.mod_eq_of_lt h10
      simp only [Nat.toDigitsCore, hdiv, hmod, if_pos]
      rw [repDigits, dif_pos h10]
      rfl
    · have hdiv : n / 10 ≠ 0 := by
        have : 0 < n / 10 := Nat.div_pos (by omega) (by omega)
        omega
      simp only [Nat.toDigitsCore]
      rw [if_neg hdiv]
      have hlt : n / 10 < f := by
        have : n / 10 < n := Nat.div_lt_self (by omega) (by omega)
        omega
      rw [ih (n / 10) (Nat.digitChar (n % 10) :: ds) hlt]
      conv_rhs => rw [repDigits, dif_neg h10]
      simp

theorem repr_eq_repDigits (n : Nat) : Nat.repr n = (repDigits n).asString := by
  show (Nat.toDigits 10 n).asString = (repDigits n).asString
  unfold Nat.toDigits
  rw [toDigitsCore_eq_repDigits (n + 1) n [] (Nat.lt_succ_self n)]
  simp

theorem evalDigits_append_singleton (xs : List Char) (c : Char) :
    evalDigits (xs ++ [c]) = evalDigits xs * 10 + digitVal c := by
  unfold evalDigits
  rw [List.foldl_append]
  rfl

theorem evalDigits_repDigits (n : Nat) : evalDigits (repDigits n) = n := by
  induction n using Nat.strong_induction_on with
  | _ n ih =>
    rw [repDigits]
    by_cases h10 : n < 10
    · rw [dif_pos h10]
      have hd := digitVal_digitChar n h10
      simp [evalDigits, hd]
    · rw [dif_neg h10]
      rw [evalDigits_append_singleton]
      rw [ih (n / 10) (Nat.div_lt_self (by omega) (by omega))]
      rw [digitVal_digitChar (n % 10) (Nat.mod_lt n (by omega))]
      omega

theorem repr_injective (a b : Nat) (h : Nat.repr a = Nat.repr b) : a = b := by
  rw [repr_eq_repDigits, repr_eq_repDigits] at h
  have hl : repDigits a = repDigits b := List.asString_inj.mp h
  have ha := evalDigits_repDigits a
  have hb := evalDigits_repDigits b
  rw [← ha, ← hb, hl]

theorem genSessionId_injective (t1 t2 : Nat) (hne : t1 ≠ t2) :
    genSessionId t1 ≠ genSessionId t2 := by
  intro h
  apply hne
  apply repr_injective
  have hdata := congrArg String.data h
  simp only [genSessionId, String.data_append] at hdata
  exact String.ext (List.append_cancel_left hdata)

/-! ### Claims about the recording session machinery -/

/-- C4: stopping an active recording (one with a live recorder, stream,
audio context and pending animation frame) emits, in this order and before
returning: recorder stop, capture-track release, audio-context close,
animation-frame cancellation, and exactly one end-session notice attempt;
the local state transitions to stopped with the buttons and status reset,
and the result is identical whether the end-session notice succeeds or
fails (the failure is caught and only logged). -/
theorem c4_stop_teardown (s : RecorderState) (noticeOk : Bool)
    (hmr : s.mediaRecorder = true) (hrec : s.isRecording = true)
    (hstream : s.recorderStream = true) (hctx : s.audioContext = true)
    (hanim : s.animationId = true) :
    (stopRecording noticeOk s).2
      = [Effect.recorderStop, Effect.tracksStopped, Effect.contextClosed,
         Effect.animationCanceled, Effect.endSessionNotice s.sessionId] ∧
    ((stopRecording noticeOk s).2.filter Effect.isEndNotice).length = 1 ∧
    (stopRecording noticeOk s).1.isRecording = false ∧
    (stopRecording noticeOk s).1.statusText = "Recording stopped" ∧
    (stopRecording noticeOk s).1 = (stopRecording (!noticeOk) s).1 := by
  simp [stopRecording, hmr, hrec, hstream, hctx, hanim, Effect.isEndNotice]

theorem c4_stop_teardown_witness :
    ((startRecording 1000 true initRecorder).1.mediaRecorder = true) ∧
    (stopRecording false (startRecording 1000 true initRecorder).1).2
      = [Effect.recorderStop, Effect.tracksStopped, Effect.contextClosed,
         Effect.animationCanceled,
         Effect.endSessionNotice (some "session_1000")] :=
  ⟨by decide,
    by
      have h := (c4_stop_teardown (startRecording 1000 true initRecorder).1
        false (by decide) (by decide) (by decide) (by decide) (by decide)).1
      rw [h]
      decide⟩

/-- C5 counterexample: two recording sessions started in the same process
run during the same millisecond (start, stop, start again at the same
`Date.now()` value) receive the same session identifier, and that identifier
is just `session_` followed by the timestamp — there is no randomness
component, contradicting the claimed uniqueness guarantee. -/
theorem c5_same_millisecond_counterexample :
    (startRecording 12345 true
        (stopRecording true
          (startRecording 12345 true initRecorder).1).1).1.sessionId
      = (startRecording 12345 true initRecorder).1.sessionId ∧
    (startRecording 12345 true initRecorder).1.sessionId
      = some "session_12345" := by
  decide

/-- C5 (amended): the session identifier is generated from the current time
alone (`session_` + the millisecond timestamp, no randomness), so sessions
started at distinct milliseconds receive distinct identifiers, while two
sessions started within the same millisecond collide. -/
theorem c5_session_id_amended (t1 t2 : Nat) (hne : t1 ≠ t2) :
    genSessionId t1 ≠ genSessionId t2 ∧
    (startRecording t1 true initRecorder).1.sessionId
      = some (genSessionId t1) :=
  ⟨genSessionId_injective t1 t2 hne, rfl⟩

theorem c5_session_id_amended_witness :
    (1 : Nat) ≠ 2 ∧ genSessionId 1 ≠ genSessionId 2 :=
  ⟨by decide, (c5_session_id_amended 1 2 (by decide)).1⟩

/-- C6 counterexample: invoking `startRecording` while a session is active
does not fail — there is no `SessionAlreadyActive` check in script.js — and
it issues a fresh session id, overwriting the active session's id. -/
theorem c6_no_session_guard_counterexample :
    (startRecording 1000 true initRecorder).1.isRecording = true ∧
    (startRecording 2000 true
        (startRecording 1000 true initRecorder).1).2.2
      = StartOutcome.started ∧
    (startRecording 2000 true
        (startRecording 1000 true initRecorder).1).1.sessionId
      = some "session_2000" ∧
    (startRecording 2000 true
        (startRecording 1000 true initRecorder).1).1.sessionId
      ≠ (startRecording 1000 true initRecorder).1.sessionId := by
  decide

/-- C6 (amended): re-entry is prevented only at the UI level.  While the
start button is disabled — as it is after any successful start — a click is
a no-op that leaves all state, including the active session, untouched.
The `startRecording` function itself performs no active-session check: when
capture succeeds it always reports `started` and installs a fresh session
id, whatever the prior state. -/
theorem c6_start_guard_amended (s : RecorderState) (now now2 : Nat)
    (ok : Bool) (hdis : s.startBtnDisabled = true) :
    clickStart now2 ok s = (s, []) ∧
    (startRecording now true s).1.startBtnDisabled = true ∧
    (startRecording now true s).2.2 = StartOutcome.started ∧
    (startRecording now true s).1.sessionId = some (genSessionId now) := by
  refine ⟨?_, by simp [startRecording], by simp [startRecording],
    by simp [startRecording]⟩
  simp [clickStart, hdis]

theorem c6_start_guard_amended_witness :
    (startRecording 1000 true initRecorder).1.startBtnDisabled = true ∧
    clickStart 2000 true (startRecording 1000 true initRecorder).1
      = ((startRecording 1000 true initRecorder).1, []) :=
  ⟨by decide,
    (c6_start_guard_amended (startRecording 1000 true initRecorder).1
      3000 2000 true (by decide)).1⟩

end EmotionalAI
